import Mathlib

/-!
Shallow embedding of the POKEMON repository (src/server.go and the unnamed
world-server draft src/unnamed/part_000) and proofs settling the frozen
claims about its specification.

Go `int` stats are modelled as `Int`, Go `float64` multipliers and EVs as
`ℚ` (every multiplier in the source is an exact dyadic value), Go slices
and maps as lists / association lists, and nil-able pointers as `Option`.
-/

/-- The `Pokemon` struct of src/server.go (lines 44–58).  The Go field
`Type` is rendered `Type'` because `Type` is a Lean keyword; the `Owner`
back-pointer is omitted (no claim mentions it). -/
structure Pokemon where
  Name : String := ""
  Type' : List String := []
  HP : Int := 0
  BaseExp : Int := 0
  Attack : Int := 0
  Defense : Int := 0
  Speed : Int := 0
  SpecialAttack : Int := 0
  SpecialDefense : Int := 0
  Level : Int := 0
  AccumExp : Int := 0
  EV : ℚ := 0
deriving DecidableEq, Repr

/-- Association-list lookup, modelling a read of a Go map. -/
def alookup {κ α : Type} [DecidableEq κ] : List (κ × α) → κ → Option α
  | [], _ => none
  | (k, v) :: rest, key => if k = key then some v else alookup rest key

/-- Association-list deletion, modelling `delete(m, key)` on a Go map. -/
def aremove {κ α : Type} [DecidableEq κ] (l : List (κ × α)) (key : κ) :
    List (κ × α) :=
  l.filter (fun p => decide (p.1 ≠ key))

/-- Association-list update, modelling `m[key] = v` on a Go map. -/
def aset {κ α : Type} [DecidableEq κ] (l : List (κ × α)) (key : κ) (v : α) :
    List (κ × α) :=
  (key, v) :: aremove l key

/-- The `typeChart` map of src/server.go (lines 96–169): attacking type ↦
(defending type ↦ multiplier).  Values transcribed entry for entry. -/
def typeChart : List (String × List (String × ℚ)) :=
  [ ("Normal", [("Rock", mkRat 1 2), ("Ghost", 0), ("Steel", mkRat 1 2)]),
    ("Fire", [("Fire", mkRat 1 2), ("Water", mkRat 1 2), ("Grass", 2), ("Ice", 2),
      ("Bug", 2), ("Rock", mkRat 1 2), ("Dragon", mkRat 1 2), ("Steel", 2)]),
    ("Water", [("Fire", 2), ("Water", mkRat 1 2), ("Grass", mkRat 1 2), ("Ground", 2),
      ("Rock", 2), ("Dragon", mkRat 1 2)]),
    ("Electric", [("Water", 2), ("Electric", mkRat 1 2), ("Grass", mkRat 1 2),
      ("Ground", 0), ("Flying", 2), ("Dragon", mkRat 1 2)]),
    ("Grass", [("Fire", mkRat 1 2), ("Water", 2), ("Grass", mkRat 1 2), ("Poison", mkRat 1 2),
      ("Ground", 2), ("Flying", mkRat 1 2), ("Bug", mkRat 1 2), ("Rock", 2),
      ("Dragon", mkRat 1 2), ("Steel", mkRat 1 2)]),
    ("Ice", [("Fire", mkRat 1 2), ("Water", mkRat 1 2), ("Grass", 2), ("Ice", mkRat 1 2),
      ("Ground", 2), ("Flying", 2), ("Dragon", 2), ("Steel", mkRat 1 2)]),
    ("Fighting", [("Normal", 2), ("Ice", 2), ("Poison", mkRat 1 2), ("Flying", mkRat 1 2),
      ("Psychic", mkRat 1 2), ("Bug", mkRat 1 2), ("Rock", 2), ("Ghost", 0),
      ("Dark", 2), ("Steel", 2), ("Fairy", mkRat 1 2)]),
    ("Poison", [("Grass", 2), ("Poison", mkRat 1 2), ("Ground", mkRat 1 2), ("Rock", mkRat 1 2),
      ("Ghost", mkRat 1 2), ("Steel", 0), ("Fairy", 2)]),
    ("Ground", [("Fire", 2), ("Electric", 2), ("Grass", mkRat 1 2), ("Poison", 2),
      ("Flying", 0), ("Bug", mkRat 1 2), ("Rock", 2), ("Steel", 2)]),
    ("Flying", [("Electric", mkRat 1 2), ("Grass", 2), ("Fighting", 2), ("Bug", 2),
      ("Rock", mkRat 1 2), ("Steel", mkRat 1 2)]),
    ("Psychic", [("Fighting", 2), ("Poison", 2), ("Psychic", mkRat 1 2),
      ("Dark", 0), ("Steel", mkRat 1 2)]),
    ("Bug", [("Fire", mkRat 1 2), ("Grass", 2), ("Fighting", mkRat 1 2), ("Poison", mkRat 1 2),
      ("Flying", mkRat 1 2), ("Psychic", 2), ("Ghost", mkRat 1 2), ("Dark", 2),
      ("Steel", mkRat 1 2), ("Fairy", mkRat 1 2)]),
    ("Rock", [("Fire", 2), ("Ice", 2), ("Fighting", mkRat 1 2), ("Ground", mkRat 1 2),
      ("Flying", 2), ("Bug", 2), ("Steel", mkRat 1 2)]),
    ("Ghost", [("Normal", 0), ("Psychic", 2), ("Ghost", 2), ("Dark", mkRat 1 2)]),
    ("Dragon", [("Dragon", 2), ("Steel", mkRat 1 2), ("Fairy", 0)]),
    ("Dark", [("Fighting", mkRat 1 2), ("Psychic", 2), ("Ghost", 2), ("Dark", mkRat 1 2),
      ("Fairy", mkRat 1 2)]),
    ("Steel", [("Fire", mkRat 1 2), ("Water", mkRat 1 2), ("Electric", mkRat 1 2), ("Ice", 2),
      ("Rock", 2), ("Steel", mkRat 1 2), ("Fairy", 2)]),
    ("Fairy", [("Fire", mkRat 1 2), ("Poison", mkRat 1 2), ("Fighting", 2), ("Dragon", 2),
      ("Dark", 2), ("Steel", mkRat 1 2)]) ]

/-- `calculateTypeEffectiveness` (src/server.go lines 427–434): two map
lookups, defaulting to 1.0 when either is absent. -/
def calculateTypeEffectiveness (attackerType defenderType : String) : ℚ :=
  match alookup typeChart attackerType with
  | some defenderTypes =>
    match alookup defenderTypes defenderType with
    | some multiplier => multiplier
    | none => 1
  | none => 1

/-- The `maxMultiplier` accumulation of `calculateSpecialDamage`
(src/server.go lines 437–445): start at 1.0, raise on every strictly
larger multiplier over the nested loops on attacker and defender types. -/
def maxMultiplier (attacker defender : Pokemon) : ℚ :=
  attacker.Type'.foldl
    (fun acc attackerType =>
      defender.Type'.foldl
        (fun acc2 defenderType =>
          let m := calculateTypeEffectiveness attackerType defenderType
          if m > acc2 then m else acc2)
        acc)
    1

/-- Go `int(x)` conversion from `float64`: truncation toward zero. -/
def ratTrunc (q : ℚ) : ℤ :=
  if 0 ≤ q then ⌊q⌋ else ⌈q⌉

/-- `calculateSpecialDamage` (src/server.go lines 436–451):
`int(float64(SpecialAttack)*maxMultiplier - float64(SpecialDefense))`,
clamped below at 0. -/
def calculateSpecialDamage (attacker defender : Pokemon) : ℤ :=
  let damage := ratTrunc ((attacker.SpecialAttack : ℚ) *
    maxMultiplier attacker defender - (defender.SpecialDefense : ℚ))
  if damage < 0 then 0 else damage

/-- `calculateNormalDamage` (src/server.go lines 415–425).  The two
`*Pokemon` arguments are nil-able, hence `Option`; the nil guard returns 0
before any field is read. -/
def calculateNormalDamage (attacker defender : Option Pokemon) : ℤ :=
  match attacker, defender with
  | some a, some d =>
    let damage := a.Attack - d.Defense
    if damage < 0 then 0 else damage
  | _, _ => 0

/-- All multipliers of the cross product of the two creatures' type lists,
each looked up in the chart (absent pairs default to 1.0). -/
def pairMultipliers (attacker defender : Pokemon) : List ℚ :=
  attacker.Type'.flatMap
    (fun attackerType =>
      defender.Type'.map
        (fun defenderType =>
          calculateTypeEffectiveness attackerType defenderType))

/-- Modelled from the spec's words, for refinement comparison with
`maxMultiplier`: effectiveness is the maximum multiplier over the cross
product of attacker types and defender types (0 when a type list is
empty; all chart multipliers are nonnegative, so on nonempty lists this
is the true maximum). -/
def specCrossEffectiveness (attacker defender : Pokemon) : ℚ :=
  (pairMultipliers attacker defender).foldr max 0

/-- A successful association-list lookup returns one of the stored values. -/
lemma alookup_mem {κ α : Type} [DecidableEq κ] :
    ∀ (l : List (κ × α)) (key : κ) (v : α),
      alookup l key = some v → v ∈ l.map Prod.snd
  | [], _, _ => by simp [alookup]
  | (k, w) :: rest, key, v => by
    simp only [alookup, List.map_cons, List.mem_cons]
    split
    · intro h
      exact Or.inl (Option.some.inj h).symm
    · intro h
      exact Or.inr (alookup_mem rest key v h)

/-- Every multiplier stored in the chart is 0, 0.5 or 2. -/
lemma typeChart_values :
    ∀ row ∈ typeChart.map Prod.snd, ∀ q ∈ row.map Prod.snd,
      q = 0 ∨ q = mkRat 1 2 ∨ q = 2 := by decide

/-- A type-effectiveness lookup yields 0, 0.5, 1 (the default) or 2. -/
lemma calculateTypeEffectiveness_cases (a d : String) :
    calculateTypeEffectiveness a d = 0 ∨
    calculateTypeEffectiveness a d = mkRat 1 2 ∨
    calculateTypeEffectiveness a d = 1 ∨
    calculateTypeEffectiveness a d = 2 := by
  unfold calculateTypeEffectiveness
  split
  next row hrow =>
    split
    next m hm =>
      have h1 := alookup_mem typeChart a row hrow
      have h2 := alookup_mem row d m hm
      have h3 := typeChart_values row h1 m h2
      tauto
    next hm => simp
  next hrow => simp

/-- The source's conditional update is the binary maximum. -/
lemma ite_gt_eq_max (acc m : ℚ) : (if m > acc then m else acc) = max acc m := by
  rcases le_or_lt m acc with h | h
  · rw [if_neg (not_lt.mpr h), max_eq_left h]
  · rw [if_pos h, max_eq_right h.le]

/-- The inner defender-type loop is a fold of `max` over the mapped
multipliers. -/
lemma inner_foldl_eq (dts : List String) (f : String → ℚ) (init : ℚ) :
    dts.foldl (fun acc2 dt => if f dt > acc2 then f dt else acc2) init
      = (dts.map f).foldl max init := by
  rw [List.foldl_map]
  congr 1
  funext acc dt
  exact ite_gt_eq_max acc (f dt)

/-- The nested loops of `calculateSpecialDamage` fold `max` over the list
of cross-product multipliers, starting from 1. -/
lemma maxMultiplier_eq_foldl (a d : Pokemon) :
    maxMultiplier a d = (pairMultipliers a d).foldl max 1 := by
  unfold maxMultiplier pairMultipliers
  generalize (1 : ℚ) = init
  induction a.Type' generalizing init with
  | nil => rfl
  | cons atk rest ih =>
    simp only [List.foldl_cons, List.flatMap_cons, List.foldl_append]
    rw [← ih, ← inner_foldl_eq]

/-- Folding `max` from a seed dominates the seed and the foldr-maximum of
the list from any smaller base. -/
lemma foldl_max_eq (L : List ℚ) :
    ∀ a b : ℚ, b ≤ a → L.foldl max a = max a (L.foldr max b) := by
  induction L with
  | nil =>
    intro a b h
    simp [max_eq_left h]
  | cons x t ih =>
    intro a b h
    simp only [List.foldl_cons, List.foldr_cons]
    rw [ih (max a x) b (le_trans h (le_max_left a x)), max_assoc]

/-- Truncation toward zero of an integer-valued rational is that integer. -/
lemma ratTrunc_intCast (n : ℤ) : ratTrunc (n : ℚ) = n := by
  unfold ratTrunc
  split <;> simp

def fireMon : Pokemon := { Type' := ["Fire"], SpecialAttack := 10 }

def waterMon : Pokemon := { Type' := ["Water"] }

/-- C1 (counterexample): for attacker type list `["Fire"]` and defender
type list `["Water"]` every cross-product pair resolves to 0.5, yet the
multiplier actually accumulated by `calculateSpecialDamage` is 1, not the
cross-product maximum 0.5, and the damage is SpecialAttack × 1 = 10. -/
theorem maxMultiplier_fire_water_counterexample :
    maxMultiplier fireMon waterMon = 1 ∧
    specCrossEffectiveness fireMon waterMon = mkRat 1 2 ∧
    maxMultiplier fireMon waterMon ≠ specCrossEffectiveness fireMon waterMon ∧
    calculateSpecialDamage fireMon waterMon = 10 := by
  refine ⟨by decide, by decide, by decide, ?_⟩
  show (if ratTrunc ((fireMon.SpecialAttack : ℚ) * maxMultiplier fireMon waterMon -
      (waterMon.SpecialDefense : ℚ)) < 0 then 0
    else ratTrunc ((fireMon.SpecialAttack : ℚ) * maxMultiplier fireMon waterMon -
      (waterMon.SpecialDefense : ℚ))) = 10
  have h1 : maxMultiplier fireMon waterMon = 1 := by decide
  have h2 : (fireMon.SpecialAttack : ℚ) * maxMultiplier fireMon waterMon -
      (waterMon.SpecialDefense : ℚ) = ((10 : ℤ) : ℚ) := by
    rw [h1]
    norm_num [fireMon, waterMon]
  rw [h2, ratTrunc_intCast]
  norm_num

/-- C1 (amended): the effectiveness multiplier used by
`calculateSpecialDamage` equals the maximum of 1 and the maximum
multiplier over the cross product of the attacker's and defender's types;
pairs resolving below 1 can never lower it below the initial 1. -/
theorem maxMultiplier_eq_max_one_cross (a d : Pokemon) :
    maxMultiplier a d = max 1 (specCrossEffectiveness a d) := by
  rw [maxMultiplier_eq_foldl]
  exact foldl_max_eq (pairMultipliers a d) 1 0 (by norm_num)

/-- Every multiplier of the cross-product list is 0, 0.5, 1 or 2. -/
lemma pairMultipliers_cases (a d : Pokemon) :
    ∀ q ∈ pairMultipliers a d,
      q = 0 ∨ q = mkRat 1 2 ∨ q = 1 ∨ q = 2 := by
  intro q hq
  unfold pairMultipliers at hq
  simp only [List.mem_flatMap, List.mem_map] at hq
  obtain ⟨atk, _, dt, _, rfl⟩ := hq
  exact calculateTypeEffectiveness_cases atk dt

/-- The accumulated multiplier is always exactly 1 or 2. -/
lemma maxMultiplier_one_or_two (a d : Pokemon) :
    maxMultiplier a d = 1 ∨ maxMultiplier a d = 2 := by
  rw [maxMultiplier_eq_foldl]
  have hmem := pairMultipliers_cases a d
  revert hmem
  generalize pairMultipliers a d = L
  suffices h : ∀ (L : List ℚ), (∀ q ∈ L, q = 0 ∨ q = mkRat 1 2 ∨ q = 1 ∨ q = 2) →
      ∀ acc : ℚ, acc = 1 ∨ acc = 2 →
        L.foldl max acc = 1 ∨ L.foldl max acc = 2 by
    intro hmem
    exact h L hmem 1 (Or.inl rfl)
  intro L
  induction L with
  | nil =>
    intro _ acc hacc
    simpa using hacc
  | cons x t ih =>
    intro hq acc hacc
    simp only [List.foldl_cons]
    apply ih (fun q hq2 => hq q (List.mem_cons_of_mem _ hq2))
    rcases hacc with rfl | rfl <;>
      rcases hq x (List.mem_cons_self _ _) with rfl | rfl | rfl | rfl <;> decide

/-- Clamping a negative integer to zero is the binary maximum with 0. -/
lemma int_clamp_eq_max (n : ℤ) : (if n < 0 then 0 else n) = max 0 n := by
  rcases lt_or_le n 0 with h | h
  · rw [if_pos h, max_eq_left h.le]
  · rw [if_neg (not_lt.mpr h), max_eq_right h]

/-- C2: a Special attack deals max(0, round(SpecialAttack ×
effectivenessMultiplier − SpecialDefense)) where the multiplier is the one
`calculateSpecialDamage` resolves; that multiplier is always 1 or 2, so
the operand is an integer and Go's truncation toward zero agrees with
rounding to the nearest integer. -/
theorem calculateSpecialDamage_round_formula (a d : Pokemon) :
    calculateSpecialDamage a d =
      max 0 (round ((a.SpecialAttack : ℚ) * maxMultiplier a d -
        (d.SpecialDefense : ℚ))) := by
  show (if ratTrunc ((a.SpecialAttack : ℚ) * maxMultiplier a d -
      (d.SpecialDefense : ℚ)) < 0 then 0
    else ratTrunc ((a.SpecialAttack : ℚ) * maxMultiplier a d -
      (d.SpecialDefense : ℚ))) = _
  rcases maxMultiplier_one_or_two a d with h | h
  · have hE : (a.SpecialAttack : ℚ) * maxMultiplier a d -
        (d.SpecialDefense : ℚ) =
        ((a.SpecialAttack - d.SpecialDefense : ℤ) : ℚ) := by
      rw [h]
      push_cast
      ring
    rw [hE, ratTrunc_intCast, round_intCast, int_clamp_eq_max]
  · have hE : (a.SpecialAttack : ℚ) * maxMultiplier a d -
        (d.SpecialDefense : ℚ) =
        ((2 * a.SpecialAttack - d.SpecialDefense : ℤ) : ℚ) := by
      rw [h]
      push_cast
      ring
    rw [hE, ratTrunc_intCast, round_intCast, int_clamp_eq_max]

/-- C8: `calculateNormalDamage` returns max(0, Attack − Defense) on
non-nil arguments, and both damage functions are nonnegative on every
input. -/
theorem damage_never_negative :
    (∀ a d : Pokemon,
      calculateNormalDamage (some a) (some d) = max 0 (a.Attack - d.Defense)) ∧
    (∀ oa od : Option Pokemon, 0 ≤ calculateNormalDamage oa od) ∧
    (∀ a d : Pokemon, 0 ≤ calculateSpecialDamage a d) := by
  refine ⟨fun a d => ?_, fun oa od => ?_, fun a d => ?_⟩
  · exact int_clamp_eq_max (a.Attack - d.Defense)
  · cases oa with
    | none => simp [calculateNormalDamage]
    | some a =>
      cases od with
      | none => simp [calculateNormalDamage]
      | some d =>
        show 0 ≤ if a.Attack - d.Defense < 0 then 0 else a.Attack - d.Defense
        split <;> omega
  · show 0 ≤ if ratTrunc ((a.SpecialAttack : ℚ) * maxMultiplier a d -
      (d.SpecialDefense : ℚ)) < 0 then 0
      else ratTrunc ((a.SpecialAttack : ℚ) * maxMultiplier a d -
        (d.SpecialDefense : ℚ))
    split <;> omega

/-- C10: with a nil attacker or defender, `calculateNormalDamage` takes
the guard branch and returns 0 without reading any field. -/
theorem calculateNormalDamage_nil_safe :
    (∀ od : Option Pokemon, calculateNormalDamage none od = 0) ∧
    (∀ oa : Option Pokemon, calculateNormalDamage oa none = 0) := by
  constructor
  · intro od
    cases od <;> rfl
  · intro oa
    cases oa <;> rfl

/-- World dimensions (src/server.go lines 36–37). -/
def worldSizeX : Int := 1000

/-- World dimensions (src/server.go lines 36–37). -/
def worldSizeY : Int := 1000

/-- Team capacity bound `maxPokemonPerPlayer` (src/server.go line 41). -/
def maxPokemonPerPlayer : Nat := 200

/-- The registry write performed by `spawnPokemon` (src/server.go lines
273–278): `pokemon = &pw.pokedex[pokemonIndex]` takes a pointer INTO the
pokedex slice, and `pokemon.Level = ...`, `pokemon.EV = ...` store the
random level and EV through it, so the write lands in the registry entry
itself.  Modelled as the pokedex list with entry `idx` updated. -/
def spawnAssign : List Pokemon → Nat → Int → ℚ → List Pokemon
  | [], _, _, _ => []
  | p :: rest, 0, level, ev => { p with Level := level, EV := ev } :: rest
  | p :: rest, n + 1, level, ev => p :: spawnAssign rest n level ev

/-- The registry write performed by a battle turn (src/server.go lines
485 and 538): `client.team` holds `&pokedex[choice-1]`, and
`defender.HP -= damage` stores through that pointer, decrementing the HP
field of the registry entry. -/
def damageRegistryEntry : List Pokemon → Nat → Int → List Pokemon
  | [], _, _ => []
  | p :: rest, 0, damage => { p with HP := p.HP - damage } :: rest
  | p :: rest, n + 1, damage => p :: damageRegistryEntry rest n damage

/-- A one-entry registry whose creature is at level 1 with full HP. -/
def baseMon : Pokemon :=
  { Name := "bulbasaur", Type' := ["Grass", "Poison"], HP := 45,
    Attack := 49, Defense := 49, Speed := 45, SpecialAttack := 65,
    SpecialDefense := 65, Level := 1, EV := 1 }

/-- C3 (counterexample): spawning a world instance from a one-entry
registry with random level 57 changes the registry itself — the entry's
Level field is no longer 1 — so registry templates are not immutable
after load. -/
theorem registry_mutated_counterexample :
    spawnAssign [baseMon] 0 57 1 ≠ [baseMon] ∧
    (spawnAssign [baseMon] 0 57 1).map Pokemon.Level = [57] ∧
    (damageRegistryEntry [baseMon] 0 20).map Pokemon.HP = [25] := by decide

/-- C3 (amended): registry entries are mutated after load — spawning
writes the drawn Level and EV directly into the chosen pokedex entry, and
battle damage subtracts from the HP of the registry entry referenced by
the team pointer; all other entries are left unchanged. -/
theorem registry_mutation_semantics :
    ∀ (pokedex : List Pokemon) (idx : Nat) (level : Int) (ev : ℚ)
      (damage : Int),
      (spawnAssign pokedex idx level ev).get? idx =
        (pokedex.get? idx).map (fun p => { p with Level := level, EV := ev }) ∧
      (damageRegistryEntry pokedex idx damage).get? idx =
        (pokedex.get? idx).map (fun p => { p with HP := p.HP - damage }) := by
  intro pokedex idx level ev damage
  constructor
  · induction pokedex generalizing idx with
    | nil => cases idx <;> rfl
    | cons p rest ih =>
      cases idx with
      | zero => rfl
      | succ n => exact ih n
  · induction pokedex generalizing idx with
    | nil => cases idx <;> rfl
    | cons p rest ih =>
      cases idx with
      | zero => rfl
      | succ n => exact ih n

/-- The damage selected by attack choice in the battle loop of
`handleConnection` (src/server.go lines 529–535): 1 is a Normal attack,
2 a Special attack, anything else leaves `damage` at its zero value. -/
def turnDamage (attacker defender : Pokemon) (attackChoice : Nat) : Int :=
  if attackChoice = 1 then calculateNormalDamage (some attacker) (some defender)
  else if attackChoice = 2 then calculateSpecialDamage attacker defender
  else 0

/-- The HP of the struck creature right after `defender.HP -= damage`
(src/server.go line 538): a plain subtraction with no lower clamp. -/
def struckHP (attacker defender : Pokemon) (attackChoice : Nat) : Int :=
  defender.HP - turnDamage attacker defender attackChoice

/-- One battle turn applied to the opponent team (src/server.go lines
527–554): the defender is the team head, damage is subtracted from its
HP, and the creature is dropped from the team when the result is ≤ 0. -/
def applyTurn (attacker : Pokemon) (opponentTeam : List Pokemon)
    (attackChoice : Nat) : List Pokemon :=
  match opponentTeam with
  | [] => []
  | defender :: rest =>
    let damage := turnDamage attacker defender attackChoice
    let defender2 := { defender with HP := defender.HP - damage }
    if defender2.HP ≤ 0 then rest else defender2 :: rest

/-- A strong attacker used in the battle counterexamples. -/
def strongMon : Pokemon :=
  { Name := "machamp", Type' := ["Fighting"], HP := 90, Attack := 60,
    Defense := 40, Speed := 55, SpecialAttack := 65, SpecialDefense := 85 }

/-- A frail defender used in the battle counterexamples. -/
def frailMon : Pokemon :=
  { Name := "abra", Type' := ["Psychic"], HP := 10, Attack := 20,
    Defense := 0, Speed := 90, SpecialAttack := 105, SpecialDefense := 55 }

/-- C4 (counterexample): a Normal attack by a creature with Attack 60 on
a defender with Defense 0 and 10 HP leaves the struck creature at
−50 HP — the subtraction in the battle loop is not clamped at 0. -/
theorem struckHP_negative_counterexample :
    struckHP strongMon frailMon 1 = -50 ∧ struckHP strongMon frailMon 1 < 0 := by
  decide

/-- C4 (amended): a battle turn subtracts the damage from the defender's
HP with no lower clamp, so the stored HP may go negative; the struck
creature is removed from its owner's team exactly when the resulting HP
is ≤ 0, and otherwise stays at the head with the decremented HP. -/
theorem applyTurn_semantics :
    ∀ (attacker defender : Pokemon) (rest : List Pokemon)
      (attackChoice : Nat),
      (applyTurn attacker (defender :: rest) attackChoice =
        if struckHP attacker defender attackChoice ≤ 0 then rest
        else { defender with
          HP := struckHP attacker defender attackChoice } :: rest) ∧
      ((applyTurn attacker (defender :: rest) attackChoice).length <
          rest.length + 1 ↔
        struckHP attacker defender attackChoice ≤ 0) := by
  intro attacker defender rest attackChoice
  refine ⟨rfl, ?_⟩
  show (if struckHP attacker defender attackChoice ≤ 0 then rest
    else { defender with
      HP := struckHP attacker defender attackChoice } :: rest).length <
      rest.length + 1 ↔ _
  split
  next h =>
    constructor
    · intro _
      exact h
    · intro _
      omega
  next h =>
    constructor
    · intro hlt
      simp only [List.length_cons] at hlt
      omega
    · intro hs
      exact absurd hs h

/-- The coordinate update of `handlePlayerMovement` (src/server.go lines
332–343): each direction moves one cell, wrapping with
`(coordinate ± 1 + worldSize) % worldSize`; an unrecognized direction is
a no-op.  Only the switch statement is modelled here — the function
afterwards resets the position when the destination holds another
creature-less player (lines 346–352), which no claim depends on. -/
def handlePlayerMovement (x y worldSize : Int) (direction : String) :
    Int × Int :=
  if direction = "up" then (x, (y - 1 + worldSize) % worldSize)
  else if direction = "down" then (x, (y + 1) % worldSize)
  else if direction = "left" then ((x - 1 + worldSize) % worldSize, y)
  else if direction = "right" then ((x + 1) % worldSize, y)
  else (x, y)

/-- The movement switch of the world server's `handlePlayer`
(src/unnamed/part_000 lines 782–798): each direction moves one cell only
when not already at the corresponding edge — coordinates are clamped, not
wrapped. -/
def handlePlayerMove (x y : Int) (input : String) : Int × Int :=
  if input = "up" then (if y > 0 then (x, y - 1) else (x, y))
  else if input = "down" then
    (if y < worldSizeY - 1 then (x, y + 1) else (x, y))
  else if input = "left" then (if x > 0 then (x - 1, y) else (x, y))
  else if input = "right" then
    (if x < worldSizeX - 1 then (x + 1, y) else (x, y))
  else (x, y)

/-- C5 (counterexample): in the world server's movement handler, moving
up from row 0 leaves the player at row 0 — it does not wrap to the last
row 999. -/
theorem move_up_row_zero_counterexample :
    handlePlayerMove 5 0 "up" = (5, 0) ∧
    (handlePlayerMove 5 0 "up").2 ≠ worldSizeY - 1 := by decide

/-- C5 (amended): the battle server's `handlePlayerMovement` updates the
coordinate by one cell with wraparound modulo the grid size (up from row
0 lands on the last row), though the move can still be reverted by the
subsequent occupancy check; the world server's `handlePlayer` instead
clamps at the edges, so moving up from row 0 stays at row 0. -/
theorem movement_wrap_and_clamp (x y : Int) (hx0 : 0 ≤ x) (hx : x < 1000)
    (hy0 : 0 ≤ y) (hy : y < 1000) :
    handlePlayerMovement x y 1000 "up" =
      (x, if y = 0 then 999 else y - 1) ∧
    handlePlayerMovement x y 1000 "down" =
      (x, if y = 999 then 0 else y + 1) ∧
    handlePlayerMovement x y 1000 "left" =
      ((if x = 0 then 999 else x - 1), y) ∧
    handlePlayerMovement x y 1000 "right" =
      ((if x = 999 then 0 else x + 1), y) ∧
    handlePlayerMove x 0 "up" = (x, 0) ∧
    handlePlayerMove x 999 "down" = (x, 999) := by
  refine ⟨?_, ?_, ?_, ?_, ?_, ?_⟩
  · simp only [handlePlayerMovement, String.reduceEq, reduceIte,
      Prod.mk.injEq, true_and]
    split <;> omega
  · simp only [handlePlayerMovement, String.reduceEq, reduceIte,
      Prod.mk.injEq, true_and]
    split <;> omega
  · simp only [handlePlayerMovement, String.reduceEq, reduceIte,
      Prod.mk.injEq, and_true]
    split <;> omega
  · simp only [handlePlayerMovement, String.reduceEq, reduceIte,
      Prod.mk.injEq, and_true]
    split <;> omega
  · simp [handlePlayerMove]
  · simp [handlePlayerMove, worldSizeY]

/-- C5 (witness): the wrap/clamp description applies at position (0, 0). -/
theorem movement_wrap_and_clamp_witness :
    handlePlayerMovement 0 0 1000 "up" = (0, 999) ∧
    handlePlayerMove 0 0 "up" = (0, 0) := by
  have h := movement_wrap_and_clamp 0 0 (by norm_num) (by norm_num)
    (by norm_num) (by norm_num)
  exact ⟨by simpa using h.1, by simpa using h.2.2.2.2.1⟩

/-- State of the `Pokeworld` (src/server.go lines 61–74) as far as the
claims touch it.  A spawned creature is `&pw.pokedex[pokemonIndex]`, so
its pointer identity is exactly its pokedex index: `grid` maps occupied
cells to that index, `despawnTimers` is the map from creature pointer to
its (latest) timer, `pending` holds the timers that were scheduled and
neither stopped nor fired, each with the cell and creature the callback
closed over, and `team` is the capturing client's team (by pokedex
index). -/
structure PW where
  grid : List ((Nat × Nat) × Nat)
  despawnTimers : List (Nat × Nat)
  pending : List (Nat × ((Nat × Nat) × Nat))
  TotalPokemon : Int
  team : List Nat
deriving DecidableEq, Repr

/-- The world before anything spawned. -/
def pwEmpty : PW :=
  { grid := [], despawnTimers := [], pending := [], TotalPokemon := 0,
    team := [] }

/-- One iteration body of the spawn loop (src/server.go lines 266–294):
given the iteration's random cell (x, y), pokedex index and fresh timer
id — if the cell is empty, place the creature, schedule its despawn timer
and record it in `despawnTimers`.  Note `TotalPokemon` is not touched:
nothing in the source increments it on placement (the Level/EV writes go
into the registry and are modelled by `spawnAssign`). -/
def spawnStep (st : PW) (x y idx tid : Nat) : PW :=
  match alookup st.grid (x, y) with
  | some _ => st
  | none =>
    { st with
      grid := aset st.grid (x, y) idx
      pending := (tid, ((x, y), idx)) :: st.pending
      despawnTimers := aset st.despawnTimers idx tid }

/-- `spawnPokemon` (src/server.go lines 260–296): the loop body runs once
per requested creature while `TotalPokemon < 50`; `draws` lists each
iteration's random cell, pokedex index and timer id, so `draws.length`
is the `numPokemon` argument. -/
def spawnPokemon (st : PW) (draws : List ((Nat × Nat) × Nat × Nat)) : PW :=
  match draws with
  | [] => st
  | ((x, y), idx, tid) :: rest =>
    if st.TotalPokemon < 50 then spawnPokemon (spawnStep st x y idx tid) rest
    else st

/-- The first capture block of `handlePlayer` (src/unnamed/part_000 lines
816–830): if the player's cell holds a creature and the team is below
`maxPokemonPerPlayer`, append it to the team, clear the cell, decrement
the counter, and delete and stop its despawn timer. -/
def captureMain (st : PW) (x y : Nat) : PW :=
  match alookup st.grid (x, y) with
  | none => st
  | some idx =>
    if st.team.length < maxPokemonPerPlayer then
      { grid := aremove st.grid (x, y)
        despawnTimers := aremove st.despawnTimers idx
        pending :=
          match alookup st.despawnTimers idx with
          | some tid => st.pending.filter (fun t => decide (t.1 ≠ tid))
          | none => st.pending
        TotalPokemon := st.TotalPokemon - 1
        team := st.team ++ [idx] }
    else st

/-- The auto-capture block of `handlePlayer` (src/unnamed/part_000 lines
854–862): if the cell holds a creature, capture it — with no capacity
check and no timer stop (the stop is only the placeholder comment
`... (stop despawn timer)` in the source). -/
def captureAuto (st : PW) (x y : Nat) : PW :=
  match alookup st.grid (x, y) with
  | none => st
  | some idx =>
    { st with
      team := st.team ++ [idx]
      grid := aremove st.grid (x, y)
      TotalPokemon := st.TotalPokemon - 1 }

/-- The capture logic of one `handlePlayer` loop iteration
(src/unnamed/part_000 lines 812–862): the first capture block runs, then
— the battle check and auto-move code between them mutating neither grid
nor team — the auto-capture block runs on the same coordinates. -/
def capturePhase (st : PW) (x y : Nat) : PW :=
  captureAuto (captureMain st x y) x y

/-- Elapse of the despawn timer `tid` (the `time.AfterFunc` callback of
src/server.go lines 282–292): a pending timer fires once; the callback
clears the cell, deletes the timer entry and decrements `TotalPokemon`
only if the cell still holds the exact creature pointer it closed over. -/
def timerFire (st : PW) (tid : Nat) : PW :=
  match alookup st.pending tid with
  | none => st
  | some ((x, y), idx) =>
    let st2 :=
      { st with pending := st.pending.filter (fun t => decide (t.1 ≠ tid)) }
    if alookup st2.grid (x, y) = some idx then
      { st2 with
        grid := aremove st2.grid (x, y)
        despawnTimers := aremove st2.despawnTimers idx
        TotalPokemon := st2.TotalPokemon - 1 }
    else st2

/-- First spawn cycle's draws: 50 distinct empty cells. -/
def spawnDrawsA : List ((Nat × Nat) × Nat × Nat) :=
  (List.range 50).map (fun i => ((i, 0), 0, i))

/-- Second spawn cycle's draws: 50 further distinct empty cells. -/
def spawnDrawsB : List ((Nat × Nat) × Nat × Nat) :=
  (List.range 50).map (fun i => ((i, 1), 0, 50 + i))

/-- The world after two spawn cycles of `spawnPokemon(50)` as issued by
`spawnPokemonLoop` (src/server.go lines 252–257). -/
def pwAfterTwoCycles : PW :=
  spawnPokemon (spawnPokemon pwEmpty spawnDrawsA) spawnDrawsB

/-- C6 (code bug): placing a creature never increments `TotalPokemon`
(first conjunct), so the `TotalPokemon < 50` guard never binds: two spawn
cycles of 50 on an empty grid leave 100 live creatures on the grid while
the counter still reads 0 — the global live-creature cap of 50 is
violated. -/
theorem spawn_cap_violated :
    (∀ (st : PW) (draws : List ((Nat × Nat) × Nat × Nat)),
      (spawnPokemon st draws).TotalPokemon = st.TotalPokemon) ∧
    spawnDrawsA.length = 50 ∧ spawnDrawsB.length = 50 ∧
    pwAfterTwoCycles.grid.length = 100 ∧
    pwAfterTwoCycles.TotalPokemon = 0 := by
  refine ⟨?_, by decide, by decide, by decide, by decide⟩
  intro st draws
  induction draws generalizing st with
  | nil => rfl
  | cons d rest ih =>
    obtain ⟨⟨x, y⟩, idx, tid⟩ := d
    show (if st.TotalPokemon < 50 then
      spawnPokemon (spawnStep st x y idx tid) rest else st).TotalPokemon =
      st.TotalPokemon
    split
    · rw [ih]
      unfold spawnStep
      split <;> rfl
    · rfl

/-- A team already holding 200 creatures (the capacity bound). -/
def fullTeam : List Nat := List.replicate 200 5

/-- World with one wild creature at (0, 0) (pokedex entry 1, timer 7) and
a player whose team is at the capacity bound. -/
def c9Start : PW :=
  { grid := [((0, 0), 1)], despawnTimers := [(1, 7)],
    pending := [(7, ((0, 0), 1))], TotalPokemon := 1,
    team := List.replicate 200 0 }

set_option maxRecDepth 8000 in
/-- C9 (code bug): a capture attempt with the team already at the
capacity bound of 200 does not silently fail — the first capture block
skips (capacity check holds), but the auto-capture block then captures
anyway: the team grows to 201 and the creature is removed from the
grid. -/
theorem capture_at_capacity_still_captures :
    c9Start.team.length = maxPokemonPerPlayer ∧
    (capturePhase c9Start 0 0).team.length = 201 ∧
    alookup (capturePhase c9Start 0 0).grid (0, 0) = none := by decide

/-- World where a creature (pokedex entry 0, timer 1) sits at (0, 0) and
the capturing player's team is full. -/
def c7s1 : PW :=
  spawnPokemon { pwEmpty with team := fullTeam } [((0, 0), 0, 1)]

/-- The world after the full-team player captures at (0, 0): the capture
goes through the auto-capture block, which does not stop timer 1. -/
def c7s2 : PW := capturePhase c7s1 0 0

/-- The world after the spawn loop re-spawns the same pokedex entry 0
into the again-empty cell (0, 0) with a new timer 2. -/
def c7s3 : PW := spawnPokemon c7s2 [((0, 0), 0, 2)]

set_option maxRecDepth 8000 in
/-- C7 (code bug): the creature at (0, 0) is captured before its despawn
timer fires, yet its timer is still pending afterwards (the auto-capture
path never stops it); once the same pokedex entry is re-spawned into the
same cell, the identity re-check of the callback passes, so the elapse of
the original despawn duration clears the cell and decrements the
live-creature counter again — not a no-op. -/
theorem captured_timer_fires_again :
    alookup c7s2.grid (0, 0) = none ∧
    alookup c7s2.pending 1 = some ((0, 0), 0) ∧
    alookup c7s3.grid (0, 0) = some 0 ∧
    (timerFire c7s3 1).TotalPokemon = c7s3.TotalPokemon - 1 ∧
    alookup (timerFire c7s3 1).grid (0, 0) = none := by decide
